import Mathlib

/-!
Shallow embedding of the GTO license server (`src/app.py`) and proofs about
its license verification, token, and admin mutation logic.

Modelling conventions:
* Timestamps are integers counting seconds (`Int`); the Python code compares
  `datetime` values with `<` / `>`, which maps to integer comparison.
  `timedelta(days = d)` and SQL `INTERVAL '30 days'` become `d * 86400`.
* The `licenses` table is a `List License`; the SQL surrogate `id` column is
  omitted.  `SELECT ... WHERE license_key = %s [AND is_active = TRUE]` becomes
  `List.find?`, and `UPDATE ... WHERE license_key = %s` becomes `List.map`
  guarded on the key, exactly mirroring the row filter of the statement.
* Python truthiness on optional strings (`if db_hwid:`, `email or None`) is
  modelled explicitly (`strTruthy`, `strOrNone`).
* `log_usage` (app.py lines 114-133) appends a `usage_stats` row and sets
  `last_used = CURRENT_TIMESTAMP`; the model keeps the `last_used` update
  (which touches the licenses table) and drops the append-only
  `usage_stats` insert, which no later read in the modelled code consumes.
* The PyJWT calls `jwt.encode` / `jwt.decode` are external library calls;
  decoding is modelled by a `JwtDecode` input describing the library's
  verdict (valid payload, expired signature, or invalid token), the exact
  trichotomy the `except` clauses of `users_me` distinguish.
-/

/-- Python `str.strip()`: remove leading and trailing whitespace.  Defined
over the character list so that it reduces inside the kernel. -/
def pyStrip (s : String) : String :=
  ⟨((s.data.dropWhile Char.isWhitespace).reverse.dropWhile Char.isWhitespace).reverse⟩

/-- One row of the `licenses` table (app.py lines 56-72).  The SQL serial
`id` is omitted; all other columns are kept with their names. -/
structure License where
  license_key : String
  hwid : Option String
  email : Option String
  ggid : Option String
  expiry_date : Int
  stake_level : Int
  max_devices : Int
  plan : String
  is_active : Bool
  created_at : Int
  last_used : Option Int
  notes : Option String
  deriving Repr, DecidableEq

/-- One row of the `admin_logs` table (app.py lines 75-83). -/
structure LogEntry where
  action : String
  target_key : Option String
  details : Option String
  timestamp : Int
  deriving Repr, DecidableEq

/-- The state an admin mutation endpoint touches: the `licenses` table and
the append-only `admin_logs` table. -/
structure AdminState where
  licenses : List License
  admin_logs : List LogEntry
  deriving Repr, DecidableEq

/-- `SELECT ... FROM licenses WHERE license_key = %s` (no activity filter),
as used by `api_auth` (app.py line 426) and `users_me` (line 575). -/
def lookupByKey (store : List License) (key : String) : Option License :=
  store.find? (fun l => l.license_key == key)

/-- `SELECT ... FROM licenses WHERE license_key = %s AND is_active = TRUE`,
as used by `verify_license` (app.py line 170) and `get_config` (line 227). -/
def lookupActive (store : List License) (key : String) : Option License :=
  store.find? (fun l => l.license_key == key && l.is_active)

/-- `UPDATE licenses SET hwid = %s WHERE license_key = %s` (app.py
lines 189-192 and 462): an unconditional write of `hwid` on every row with
the given key.  Note the statement has no `AND hwid IS NULL` clause. -/
def bindHwid (store : List License) (key h : String) : List License :=
  store.map (fun l => if l.license_key == key then { l with hwid := some h } else l)

/-- `UPDATE licenses SET last_used = CURRENT_TIMESTAMP WHERE license_key = %s`
from `log_usage` (app.py lines 125-128). -/
def setLastUsed (store : List License) (key : String) (now : Int) : List License :=
  store.map (fun l => if l.license_key == key then { l with last_used := some now } else l)

/-- Outcome of `POST /api/verify` (`verify_license`, app.py lines 150-216).
`malformed` is the 400 response, `invalidKey` the 401 for a missing or
inactive key, `expired` the 401 expiry response, `mismatch` the 403, and
`ok` carries the fields of the 200 JSON body that come from the license. -/
inductive VerifyResult where
  | malformed
  | invalidKey
  | expired
  | mismatch
  | ok (license_key : String) (expiry_date : Int) (stake_level : Int)
  deriving Repr, DecidableEq

/-- Whether a `VerifyResult` is the 200 success response. -/
def VerifyResult.isSuccess : VerifyResult → Bool
  | .ok _ _ _ => true
  | _ => false

/-- The read phase of `verify_license`: the single `SELECT` at app.py
lines 168-173, returning the row snapshot the rest of the call works on. -/
def verifyRead (store : List License) (key : String) : Option License :=
  lookupActive store key

/-- The decision-and-write phase of `verify_license` (app.py lines 175-212):
all checks run against the snapshot `snap` captured by `verifyRead`, while
the `UPDATE` statements run against the store as it is at write time.
Splitting the call this way mirrors the code, which issues the `SELECT`
first and later issues the unconditional `UPDATE`; nothing re-reads the row
in between. -/
def verifyWrite (store : List License) (snap : Option License)
    (key h : String) (now : Int) : VerifyResult × List License :=
  match snap with
  | none => (.invalidKey, store)
  | some ld =>
    if ld.expiry_date < now then
      (.expired, store)
    else
      match ld.hwid with
      | none =>
        -- first use: blind bind, then log_usage updates last_used
        (.ok key ld.expiry_date ld.stake_level, setLastUsed (bindHwid store key h) key now)
      | some stored =>
        if stored ≠ h then
          (.mismatch, store)
        else
          (.ok key ld.expiry_date ld.stake_level, setLastUsed store key now)

/-- `POST /api/verify` run in isolation (no interleaved writers): trim the
inputs, reject empties with 400, then the read phase followed immediately
by the decision/write phase (app.py lines 150-216). -/
def verify_license (store : List License) (license_key hwid : String) (now : Int) :
    VerifyResult × List License :=
  if pyStrip license_key = "" ∨ pyStrip hwid = "" then (.malformed, store)
  else
    verifyWrite store (verifyRead store (pyStrip license_key))
      (pyStrip license_key) (pyStrip hwid) now

/-- Outcome of `GET /api/config/<license_key>` (`get_config`, app.py
lines 218-242): 401 for a missing or inactive key, otherwise 200 with the
`stake_level` and `expiry_date` of the row. -/
inductive ConfigResult where
  | invalidLicense
  | ok (stake_level : Int) (expiry_date : Int)
  deriving Repr, DecidableEq

/-- `GET /api/config/<license_key>`: a single `SELECT ... WHERE
license_key = %s AND is_active = TRUE`; a hit is answered 200 immediately —
no expiry comparison, no device check, no token (app.py lines 218-242). -/
def get_config (store : List License) (license_key : String) : ConfigResult :=
  match lookupActive store license_key with
  | none => .invalidLicense
  | some l => .ok l.stake_level l.expiry_date

/-- Python truthiness for an optional string (`if db_hwid:`,
`if not license_key:`): `none` and the empty string are falsy. -/
def strTruthy : Option String → Option String
  | none => none
  | some s => if s = "" then none else some s

/-- Python `x or d` for an integer draw from the row (`result.get('stake_level')
or 25`): `0` is falsy and falls back to the default. -/
def intOrDefault (v d : Int) : Int := if v = 0 then d else v

/-- Python `x or d` for a string draw from the row (`result.get('plan') or
'Pro'`): the empty string falls back to the default. -/
def strOrDefault (v d : String) : String := if v = "" then d else v

/-- Number of days a freshly minted JWT is valid (`JWT_EXPIRATION_DAYS`,
app.py line 34). -/
def JWT_EXPIRATION_DAYS : Int := 7

/-- The JWT payload minted by `api_auth` (app.py lines 496-504).  The fixed
`id` field (always 471) is omitted. -/
structure JwtPayload where
  license_key : Option String
  username : String
  email : String
  stake_level : Int
  iat : Int
  exp : Int
  deriving Repr, DecidableEq

/-- Outcome of `POST /api/auth/local` (`api_auth`, app.py lines 403-540).
`missingKey`/`invalidKey`/`expired`/`hwidRequired` are the 401 responses,
`hwidMismatch` the 403, and `ok` carries the minted JWT payload of the 200
response. -/
inductive AuthResult where
  | missingKey
  | invalidKey
  | expired
  | hwidRequired
  | hwidMismatch
  | ok (token : JwtPayload)
  deriving Repr, DecidableEq

/-- The JWT payload built on the success path of `api_auth` (app.py
lines 469-506): username and email are derived from the key, `stake_level`
falls back to 25 when falsy, `iat = now`, `exp = iat + 7 days`. -/
def mintJwt (l : License) (key : String) (now : Int) : JwtPayload :=
  { license_key := some key
    username := key
    email := key ++ "@gmail.com"
    stake_level := intOrDefault l.stake_level 25
    iat := now
    exp := now + JWT_EXPIRATION_DAYS * 24 * 60 * 60 }

/-- `POST /api/auth/local` (app.py lines 403-540).  The row is fetched with
no `is_active` filter and the flag is never consulted afterwards.  Order of
checks as in the code: missing key, lookup, expiry (`now > expiry_date`),
then the hwid truthiness dance; an unbound row is bound by an unconditional
`UPDATE` when a device id was supplied. -/
def api_auth (license_key : Option String) (hwid : Option String)
    (store : List License) (now : Int) : AuthResult × List License :=
  match strTruthy license_key with
  | none => (.missingKey, store)
  | some k =>
    match lookupByKey store k with
    | none => (.invalidKey, store)
    | some l =>
      if l.expiry_date < now then (.expired, store)
      else
        match strTruthy l.hwid with
        | some dbh =>
          match strTruthy hwid with
          | none => (.hwidRequired, store)
          | some h =>
            if h ≠ dbh then (.hwidMismatch, store)
            else (.ok (mintJwt l k now), store)
        | none =>
          match strTruthy hwid with
          | some h => (.ok (mintJwt l k now), bindHwid store k h)
          | none => (.ok (mintJwt l k now), store)

/-- Verdict of the external `jwt.decode` call in `users_me` (app.py
line 558): a successfully verified payload, an `ExpiredSignatureError`, or
an `InvalidTokenError`. -/
inductive JwtDecode where
  | ok (payload : JwtPayload)
  | expiredSignature
  | invalidToken
  deriving Repr, DecidableEq

/-- Outcome of `GET /api/users/me` (`users_me`, app.py lines 542-647).
Every failure is a 401; `ok` carries the freshly re-read entitlement fields
of the 200 response. -/
inductive MeResult where
  | tokenExpired
  | invalidToken
  | notFound
  | deactivated
  | expired
  | ok (stake_level : Int) (plan : String) (ggid : Option String) (expired_at : Int)
  deriving Repr, DecidableEq

/-- `GET /api/users/me` after the bearer header has been split off: pattern
match on the `jwt.decode` verdict, reject a falsy `license_key` claim,
re-fetch the license with no activity filter, then in order: absent row →
`notFound`, `is_active = false` → `deactivated`, `now > expiry_date` →
`expired`, else 200 built from the row's current values (app.py
lines 556-647). -/
def users_me (decoded : JwtDecode) (store : List License) (now : Int) : MeResult :=
  match decoded with
  | .expiredSignature => .tokenExpired
  | .invalidToken => .invalidToken
  | .ok payload =>
    match strTruthy payload.license_key with
    | none => .invalidToken
    | some k =>
      match lookupByKey store k with
      | none => .notFound
      | some l =>
        if !l.is_active then .deactivated
        else if l.expiry_date < now then .expired
        else .ok (intOrDefault l.stake_level 25) (strOrDefault l.plan "Pro") l.ggid l.expiry_date

/-- Seconds in the SQL `INTERVAL '30 days'` used by `extend_license`
(app.py line 2112). -/
def thirtyDaysSec : Int := 30 * 86400

/-- Admin endpoint outcome: the flash message set into the session is
either the success message mentioning the key or the generic failure
message (app.py lines 2089-2094 and 2121-2126). -/
inductive AdminMsg where
  | ok (license_key : String)
  | error
  deriving Repr, DecidableEq

/-- Action of the `UPDATE` of `/extend` on one row: add 30 days to
`expiry_date` when the key matches, leave the row alone otherwise. -/
def extendRow (license_key : String) (l : License) : License :=
  if l.license_key == license_key
  then { l with expiry_date := l.expiry_date + thirtyDaysSec } else l

/-- `POST /extend` (`extend_license`, app.py lines 2098-2128): one
unconditional `UPDATE licenses SET expiry_date = expiry_date + INTERVAL '30
days' WHERE license_key = %s`, then an audit row and the success message —
the number of rows the `UPDATE` touched is never inspected. -/
def extend_license (st : AdminState) (license_key : String) (now : Int) :
    AdminMsg × AdminState :=
  (.ok license_key,
    ⟨st.licenses.map (extendRow license_key),
      st.admin_logs ++ [⟨"延长 License", some license_key, some "延长 30 天", now⟩]⟩)

/-- Python `s or None` on a stripped form field (`email or None`, app.py
line 2082): the empty string becomes SQL NULL. -/
def strOrNone (s : String) : Option String :=
  if s = "" then none else some s

/-- The row inserted by `create_license` (app.py lines 2079-2082): the
`INSERT` names neither `hwid` nor `is_active` nor `last_used`, so those take
their column defaults NULL, TRUE and NULL; `expiry_date = now + days`. -/
def mkLicense (license_key : String) (now days stake_level max_devices : Int)
    (plan email ggid notes : String) : License :=
  { license_key := license_key
    hwid := none
    email := strOrNone (pyStrip email)
    ggid := strOrNone (pyStrip ggid)
    expiry_date := now + days * 86400
    stake_level := stake_level
    max_devices := max_devices
    plan := pyStrip plan
    is_active := true
    created_at := now
    last_used := none
    notes := strOrNone (pyStrip notes) }

/-- `POST /create-license` (`create_license`, app.py lines 2057-2096).
`generate_license_key` draws fresh randomness each call; the draw stream is
the argument `gen`, and the code consumes exactly `gen 0` — a single key is
generated before the single `INSERT`.  A `UNIQUE` violation on
`license_key` makes the `INSERT` raise, which the `except` turns into the
failure message with nothing committed and no audit row written; there is
no retry loop.  On success the new row and one audit row are committed. -/
def create_license (gen : Nat → String) (st : AdminState) (now : Int)
    (days : Int) (plan : String) (stake_level max_devices : Int)
    (email ggid notes : String) : AdminMsg × AdminState :=
  let license_key := gen 0
  if st.licenses.any (fun l => l.license_key == license_key) then
    (.error, st)
  else
    (.ok license_key,
      ⟨st.licenses ++ [mkLicense license_key now days stake_level max_devices plan email ggid notes],
        st.admin_logs ++ [⟨"创建 License", some license_key, some "创建", now⟩]⟩)

/-! ### Helper lemmas -/

lemma verifyRead_singleton_active (L : License) (hact : L.is_active = true) :
    verifyRead [L] L.license_key = some L := by
  simp [verifyRead, lookupActive, List.find?, hact]

lemma verifyRead_singleton_inactive (L : License) (hact : L.is_active = false) :
    verifyRead [L] L.license_key = none := by
  simp [verifyRead, lookupActive, List.find?, hact]

lemma setLastUsed_singleton (L : License) (now : Int) :
    setLastUsed [L] L.license_key now = [{ L with last_used := some now }] := by
  simp [setLastUsed]

lemma bindHwid_singleton (L : License) (h : String) :
    bindHwid [L] L.license_key h = [{ L with hwid := some h }] := by
  simp [bindHwid]

/-- In isolation, a call on a singleton store whose license is active,
unexpired and already bound to the requested device returns the 200
response and only refreshes `last_used`. -/
lemma verify_bound_ok (L : License) (key dev : String) (now : Int)
    (hk : pyStrip key = L.license_key) (hk0 : L.license_key ≠ "")
    (hd0 : pyStrip dev ≠ "") (hact : L.is_active = true)
    (hexp : ¬ L.expiry_date < now) (hbound : L.hwid = some (pyStrip dev)) :
    verify_license [L] key dev now =
      (.ok L.license_key L.expiry_date L.stake_level, [{ L with last_used := some now }]) := by
  have hguard : ¬ (pyStrip key = "" ∨ pyStrip dev = "") := by
    rw [hk]; exact fun h => h.elim hk0 hd0
  rw [verify_license, if_neg hguard, hk,
    verifyRead_singleton_active L hact, verifyWrite]
  simp [hexp, hbound, setLastUsed_singleton]

/-! ### Claims -/

/-- A concrete license used in the counterexample to C2: active, unbound,
with `expiry_date = 100`. -/
def cexC2 : License :=
  { license_key := "GTO-C2AA-BBBB-CCCC", hwid := none, email := none, ggid := none
    expiry_date := 100, stake_level := 25, max_devices := 1, plan := "Pro"
    is_active := true, created_at := 0, last_used := none, notes := none }

/-- Counterexample to C2 as stated: at the boundary `expires_at = now` the
code's strict comparison `expiry_date < now` does not fire, so `Verify`
succeeds even though `expires_at` is not strictly later than `now`. -/
theorem verify_iff_strict_future_cex :
    (verify_license [cexC2] "GTO-C2AA-BBBB-CCCC" "DEV-1" 100).1.isSuccess = true ∧
    ¬ ((100 : Int) < cexC2.expiry_date) := by decide

/-- C2 (amended): `Verify` on a stored license succeeds iff the license is
active, `expires_at ≥ now` (at-or-after, not strictly after), and the
stored device id is null or equals the requested device; and an inactive
license is answered exactly as an absent key. -/
theorem verify_succeeds_iff_active_unexpired_device_ok
    (L : License) (key dev : String) (now : Int)
    (hk : pyStrip key = L.license_key) (hk0 : L.license_key ≠ "")
    (hd0 : pyStrip dev ≠ "") :
    ((verify_license [L] key dev now).1.isSuccess = true ↔
      L.is_active = true ∧ now ≤ L.expiry_date ∧
        (L.hwid = none ∨ L.hwid = some (pyStrip dev))) ∧
    (L.is_active = false →
      (verify_license [L] key dev now).1 = (verify_license [] key dev now).1) := by
  have hguard : ¬ (pyStrip key = "" ∨ pyStrip dev = "") := by
    rw [hk]; exact fun h => h.elim hk0 hd0
  rw [verify_license, verify_license, if_neg hguard, if_neg hguard, hk]
  cases hact : L.is_active with
  | false =>
    rw [verifyRead_singleton_inactive L hact]
    simp [verifyWrite, verifyRead, lookupActive, VerifyResult.isSuccess]
  | true =>
    rw [verifyRead_singleton_active L hact]
    rw [verifyWrite]
    refine ⟨?_, by simp [hact]⟩
    by_cases hexp : L.expiry_date < now
    · simp [hexp, hact, VerifyResult.isSuccess]
    · cases hh : L.hwid with
      | none => simp [hexp, hact, hh, VerifyResult.isSuccess]; omega
      | some s =>
        by_cases hs : s = pyStrip dev
        · simp [hexp, hact, hh, hs, VerifyResult.isSuccess]; omega
        · simp [hexp, hact, hh, hs, VerifyResult.isSuccess]

/-- Witness for the amended C2 theorem at a concrete input. -/
theorem verify_succeeds_iff_active_unexpired_device_ok_witness :
    (verify_license [cexC2] "GTO-C2AA-BBBB-CCCC" "DEV-1" 50).1.isSuccess = true ↔
      cexC2.is_active = true ∧ (50 : Int) ≤ cexC2.expiry_date ∧
        (cexC2.hwid = none ∨ cexC2.hwid = some (pyStrip "DEV-1")) :=
  (verify_succeeds_iff_active_unexpired_device_ok cexC2 "GTO-C2AA-BBBB-CCCC" "DEV-1" 50
    (by decide) (by decide) (by decide)).1

/-- A concrete license used in the counterexample to C3: active, unbound,
with `expiry_date = 200`. -/
def cexC3 : License :=
  { license_key := "GTO-C3AA-BBBB-CCCC", hwid := none, email := none, ggid := none
    expiry_date := 200, stake_level := 25, max_devices := 1, plan := "Pro"
    is_active := true, created_at := 0, last_used := none, notes := none }

/-- Counterexample to C3 as stated: a license whose `expires_at` equals
`now` exactly is not rejected — the code's check is the strict
`expiry_date < now`, so at equality the call succeeds instead of failing
with `Expired`. -/
theorem verify_expiry_equality_accepted_cex :
    (verify_license [cexC3] "GTO-C3AA-BBBB-CCCC" "DEV-2" 200).1 ≠ VerifyResult.expired ∧
    (verify_license [cexC3] "GTO-C3AA-BBBB-CCCC" "DEV-2" 200).1.isSuccess = true := by
  decide

/-- C3 (amended): for an active stored license, `Verify` fails with
`Expired` exactly when `expires_at < now` strictly; whenever
`expires_at ≥ now` — equality included — the expiry check passes and the
result is never `Expired`. -/
theorem verify_expired_strictly_before_now
    (L : License) (key dev : String) (now : Int)
    (hk : pyStrip key = L.license_key) (hk0 : L.license_key ≠ "")
    (hd0 : pyStrip dev ≠ "") (hact : L.is_active = true) :
    (L.expiry_date < now → (verify_license [L] key dev now).1 = .expired) ∧
    (now ≤ L.expiry_date → (verify_license [L] key dev now).1 ≠ .expired) := by
  have hguard : ¬ (pyStrip key = "" ∨ pyStrip dev = "") := by
    rw [hk]; exact fun h => h.elim hk0 hd0
  rw [verify_license, if_neg hguard, hk, verifyRead_singleton_active L hact, verifyWrite]
  constructor
  · intro hexp
    simp [hexp]
  · intro hle
    have hexp : ¬ L.expiry_date < now := by omega
    cases hh : L.hwid with
    | none => simp [hexp, hh]
    | some s =>
      by_cases hs : s ≠ pyStrip dev
      · simp [hexp, hh, hs]
      · simp [hexp, hh, hs]

/-- Witness for the amended C3 theorem at a concrete input. -/
theorem verify_expired_strictly_before_now_witness :
    cexC3.expiry_date < 300 ∧
      (verify_license [cexC3] "GTO-C3AA-BBBB-CCCC" "DEV-2" 300).1 = .expired :=
  ⟨by decide,
    (verify_expired_strictly_before_now cexC3 "GTO-C3AA-BBBB-CCCC" "DEV-2" 300
      (by decide) (by decide) (by decide) (by decide)).1 (by decide)⟩

/-- C7: once a license is bound to device `d`, a `Verify` call with the
same key and the same device succeeds again, leaves the stored device id
unchanged (only `last_used` is refreshed), and a further identical call on
the resulting store succeeds as well. -/
theorem verify_rebind_same_device_idempotent
    (L : License) (key dev : String) (now : Int)
    (hk : pyStrip key = L.license_key) (hk0 : L.license_key ≠ "")
    (hd0 : pyStrip dev ≠ "") (hact : L.is_active = true)
    (hexp : ¬ L.expiry_date < now) (hbound : L.hwid = some (pyStrip dev)) :
    verify_license [L] key dev now =
      (.ok L.license_key L.expiry_date L.stake_level, [{ L with last_used := some now }]) ∧
    (verify_license [{ L with last_used := some now }] key dev now).1.isSuccess = true := by
  refine ⟨verify_bound_ok L key dev now hk hk0 hd0 hact hexp hbound, ?_⟩
  rw [verify_bound_ok { L with last_used := some now } key dev now hk hk0 hd0 hact hexp hbound]
  rfl

/-- A concrete bound license used in the witness to C7. -/
def boundC7 : License :=
  { license_key := "GTO-C7AA-BBBB-CCCC", hwid := some "DEV-7", email := none, ggid := none
    expiry_date := 1000, stake_level := 25, max_devices := 1, plan := "Pro"
    is_active := true, created_at := 0, last_used := none, notes := none }

/-- Witness for the C7 theorem at a concrete input. -/
theorem verify_rebind_same_device_idempotent_witness :
    verify_license [boundC7] "GTO-C7AA-BBBB-CCCC" "DEV-7" 400 =
      (.ok boundC7.license_key boundC7.expiry_date boundC7.stake_level,
        [{ boundC7 with last_used := some 400 }]) ∧
    (verify_license [{ boundC7 with last_used := some 400 }]
        "GTO-C7AA-BBBB-CCCC" "DEV-7" 400).1.isSuccess = true :=
  verify_rebind_same_device_idempotent boundC7 "GTO-C7AA-BBBB-CCCC" "DEV-7" 400
    (by decide) (by decide) (by decide) (by decide) (by decide) (by decide)

/-- A concrete unbound license used in the counterexample to C1. -/
def raceC1 : License :=
  { license_key := "GTO-C1AA-BBBB-CCCC", hwid := none, email := none, ggid := none
    expiry_date := 1000, stake_level := 25, max_devices := 1, plan := "Pro"
    is_active := true, created_at := 0, last_used := none, notes := none }

/-- The store after running the first-use schedule read-A, read-B, write-A,
write-B on a singleton store, together with both calls' results: both calls
snapshot the unbound row before either writes, exactly the interleaving the
code's separate `SELECT` and unconditional `UPDATE` admit. -/
def raceSchedule (L : License) (d1 d2 : String) (now : Int) :
    (VerifyResult × VerifyResult) × List License :=
  let s0 := [L]
  let snapA := verifyRead s0 L.license_key
  let snapB := verifyRead s0 L.license_key
  let ra := verifyWrite s0 snapA L.license_key d1 now
  let rb := verifyWrite ra.2 snapB L.license_key d2 now
  ((ra.1, rb.1), rb.2)

/-- Counterexample to C1 as stated: the binding `UPDATE` of
`verify_license` carries no `hwid IS NULL` guard, so when two first-use
calls with devices `D1` and `D2` both read before either writes, both
return success — no `DeviceMismatch` is produced — and the stored device id
is the last writer's `D2`, clobbering `D1`. -/
theorem verify_race_both_succeed_cex :
    ((raceSchedule raceC1 "D1" "D2" 500).1.1.isSuccess = true ∧
      (raceSchedule raceC1 "D1" "D2" 500).1.2.isSuccess = true) ∧
    (raceSchedule raceC1 "D1" "D2" 500).1.1 ≠ VerifyResult.mismatch ∧
    (raceSchedule raceC1 "D1" "D2" 500).1.2 ≠ VerifyResult.mismatch ∧
    (lookupByKey (raceSchedule raceC1 "D1" "D2" 500).2 "GTO-C1AA-BBBB-CCCC").map
        License.hwid = some (some "D2") := by
  decide

/-- C1 (amended): the first-use binding is a plain read followed by an
unconditional update, not a compare-and-swap; under the interleaving in
which two concurrent first-use `Verify` calls with distinct device
identifiers both read before either writes, both calls succeed, neither
fails with `DeviceMismatch`, and the stored `device_id` afterward is the
second writer's device (the last write wins). -/
theorem verify_race_read_read_write_write
    (L : License) (d1 d2 : String) (now : Int)
    (hact : L.is_active = true) (hexp : ¬ L.expiry_date < now)
    (hunbound : L.hwid = none) (hne : d1 ≠ d2) :
    (raceSchedule L d1 d2 now).1.1.isSuccess = true ∧
    (raceSchedule L d1 d2 now).1.2.isSuccess = true ∧
    (raceSchedule L d1 d2 now).2 =
      [{ L with hwid := some d2, last_used := some now }] ∧
    ({ L with hwid := some d2, last_used := some now } : License).hwid ≠ some d1 := by
  rw [raceSchedule]
  rw [verifyRead_singleton_active L hact]
  rw [verifyWrite, verifyWrite]
  simp only [hunbound, if_neg hexp, bindHwid_singleton, setLastUsed_singleton]
  refine ⟨rfl, rfl, trivial, ?_⟩
  exact fun h => hne (Option.some.inj h).symm

/-- Witness for the amended C1 theorem at a concrete input. -/
theorem verify_race_read_read_write_write_witness :
    (raceSchedule raceC1 "DA" "DB" 500).1.1.isSuccess = true ∧
    (raceSchedule raceC1 "DA" "DB" 500).1.2.isSuccess = true ∧
    (raceSchedule raceC1 "DA" "DB" 500).2 =
      [{ raceC1 with hwid := some "DB", last_used := some 500 }] ∧
    ({ raceC1 with hwid := some "DB", last_used := some 500 } : License).hwid ≠ some "DA" :=
  verify_race_read_read_write_write raceC1 "DA" "DB" 500
    (by decide) (by decide) (by decide) (by decide)

/-- C4: a well-signed, unexpired token whose underlying license has been
deactivated is rejected by `Authenticate` (`users_me`) with the
`Deactivated` error — the active flag is re-read from the store on every
call, so deactivation takes effect with no token re-issuance. -/
theorem users_me_deactivated_rejected
    (p : JwtPayload) (store : List License) (L : License) (k : String) (now : Int)
    (hp : p.license_key = some k) (hk0 : k ≠ "")
    (hfound : lookupByKey store k = some L) (hinact : L.is_active = false) :
    users_me (.ok p) store now = .deactivated := by
  rw [users_me, hp]
  simp only [strTruthy, if_neg hk0, hfound]
  simp [hinact]

/-- A concrete deactivated license used in the witness to C4. -/
def deactC4 : License :=
  { license_key := "GTO-C4AA-BBBB-CCCC", hwid := some "DEV-4", email := none, ggid := none
    expiry_date := 10000, stake_level := 25, max_devices := 1, plan := "Pro"
    is_active := false, created_at := 0, last_used := none, notes := none }

/-- A concrete decoded token payload used in the witness to C4. -/
def tokenC4 : JwtPayload :=
  { license_key := some "GTO-C4AA-BBBB-CCCC", username := "GTO-C4AA-BBBB-CCCC"
    email := "GTO-C4AA-BBBB-CCCC@gmail.com", stake_level := 25, iat := 0, exp := 604800 }

/-- Witness for the C4 theorem at a concrete input. -/
theorem users_me_deactivated_rejected_witness :
    users_me (.ok tokenC4) [deactC4] 100 = .deactivated :=
  users_me_deactivated_rejected tokenC4 [deactC4] deactC4 "GTO-C4AA-BBBB-CCCC" 100
    (by decide) (by decide) (by decide) (by decide)

/-- C9: `POST /api/auth/local` never consults `is_active` — its `SELECT`
has no activity filter and no later check reads the flag — so a deactivated
license whose expiry is still in the future and whose stored device id is
null or matches the supplied one is still answered 200 with a fresh JWT
whose expiry is exactly 7 days after its issue time. -/
theorem api_auth_ignores_active_flag
    (L : License) (d : String) (now : Int)
    (hk0 : L.license_key ≠ "") (hd0 : d ≠ "")
    (hinact : L.is_active = false) (hexp : ¬ L.expiry_date < now)
    (hdev : L.hwid = none ∨ L.hwid = some d) :
    (api_auth (some L.license_key) (some d) [L] now).1 = .ok (mintJwt L L.license_key now) ∧
    (mintJwt L L.license_key now).exp = (mintJwt L L.license_key now).iat + 7 * 86400 := by
  refine ⟨?_, rfl⟩
  rw [api_auth]
  simp only [strTruthy, if_neg hk0]
  have hfound : lookupByKey [L] L.license_key = some L := by
    simp [lookupByKey, List.find?]
  rw [hfound]
  rcases hdev with hdev | hdev
  · simp [hexp, hdev, strTruthy, hd0]
  · simp [hexp, hdev, strTruthy, hd0]

/-- A concrete deactivated, unexpired license used in the witness to C9. -/
def inactC9 : License :=
  { license_key := "GTO-C9AA-BBBB-CCCC", hwid := none, email := none, ggid := none
    expiry_date := 10000, stake_level := 25, max_devices := 1, plan := "Pro"
    is_active := false, created_at := 0, last_used := none, notes := none }

/-- Witness for the C9 theorem at a concrete input. -/
theorem api_auth_ignores_active_flag_witness :
    (api_auth (some inactC9.license_key) (some "DEV-9") [inactC9] 100).1 =
      .ok (mintJwt inactC9 inactC9.license_key 100) ∧
    (mintJwt inactC9 inactC9.license_key 100).exp =
      (mintJwt inactC9 inactC9.license_key 100).iat + 7 * 86400 :=
  api_auth_ignores_active_flag inactC9 "DEV-9" 100
    (by decide) (by decide) (by decide) (by decide) (Or.inl (by decide))

/-- C10: `GET /api/config/<license_key>` checks only existence and
`is_active = TRUE`: an active license whose `expiry_date` is already in the
past is still answered 200 with its `stake_level` and `expiry_date` — the
endpoint takes no device identifier and no token, and never compares the
expiry against the clock. -/
theorem get_config_ignores_expiry
    (L : License) (now : Int)
    (hact : L.is_active = true) (hpast : L.expiry_date < now) :
    get_config [L] L.license_key = .ok L.stake_level L.expiry_date := by
  rw [get_config]
  have hfound : lookupActive [L] L.license_key = some L := by
    simp [lookupActive, List.find?, hact]
  rw [hfound]

/-- A concrete active but already-expired license used in the witness to
C10. -/
def expiredC10 : License :=
  { license_key := "GTO-CAAA-BBBB-CCCC", hwid := some "DEV-10", email := none, ggid := none
    expiry_date := 100, stake_level := 50, max_devices := 1, plan := "Pro"
    is_active := true, created_at := 0, last_used := none, notes := none }

/-- Witness for the C10 theorem at a concrete input. -/
theorem get_config_ignores_expiry_witness :
    get_config [expiredC10] expiredC10.license_key =
      .ok expiredC10.stake_level expiredC10.expiry_date :=
  get_config_ignores_expiry expiredC10 500 (by decide) (by decide)

/-- Counterexample to C5 as stated: extending a key that is absent from the
store (here: the empty store) does not fail with `NotFound` — the endpoint
reports the success message and writes an audit entry anyway. -/
theorem extend_missing_key_reports_success_cex :
    (extend_license ⟨[], []⟩ "GTO-C5AA-BBBB-CCCC" 0).1 = .ok "GTO-C5AA-BBBB-CCCC" ∧
    (extend_license ⟨[], []⟩ "GTO-C5AA-BBBB-CCCC" 0).2.admin_logs =
      [⟨"延长 License", some "GTO-C5AA-BBBB-CCCC", some "延长 30 天", 0⟩] := by
  decide

/-- C5 (amended): for a key with no matching license, `ExtendLicense`
leaves the licenses table unchanged (the `UPDATE` matches zero rows), yet
still reports success and appends exactly one audit entry; no `NotFound`
failure exists on this path. -/
theorem extend_missing_key_behavior
    (st : AdminState) (k : String) (now : Int)
    (habsent : ∀ l ∈ st.licenses, l.license_key ≠ k) :
    (extend_license st k now).1 = .ok k ∧
    (extend_license st k now).2.licenses = st.licenses ∧
    (extend_license st k now).2.admin_logs =
      st.admin_logs ++ [⟨"延长 License", some k, some "延长 30 天", now⟩] := by
  refine ⟨rfl, ?_, rfl⟩
  show st.licenses.map (extendRow k) = st.licenses
  conv_rhs => rw [← List.map_id st.licenses]
  refine List.map_congr_left ?_
  intro l hl
  simp [extendRow, habsent l hl]

/-- Witness for the amended C5 theorem at a concrete input. -/
theorem extend_missing_key_behavior_witness :
    (extend_license ⟨[], []⟩ "GTO-C5BB-BBBB-CCCC" 7).1 = .ok "GTO-C5BB-BBBB-CCCC" ∧
    (extend_license ⟨[], []⟩ "GTO-C5BB-BBBB-CCCC" 7).2.licenses = [] ∧
    (extend_license ⟨[], []⟩ "GTO-C5BB-BBBB-CCCC" 7).2.admin_logs =
      [] ++ [⟨"延长 License", some "GTO-C5BB-BBBB-CCCC", some "延长 30 天", 7⟩] :=
  extend_missing_key_behavior ⟨[], []⟩ "GTO-C5BB-BBBB-CCCC" 7 (by simp)

lemma lookupByKey_extendMap (ls : List License) (k : String) :
    lookupByKey (ls.map (extendRow k)) k =
      (lookupByKey ls k).map
        (fun l => { l with expiry_date := l.expiry_date + thirtyDaysSec }) := by
  induction ls with
  | nil => rfl
  | cons l ls ih =>
    by_cases hb : l.license_key = k
    · have hb2 : ((extendRow k l).license_key == k) = true := by
        simp [extendRow, hb]
      simp only [List.map_cons, lookupByKey, List.find?_cons, hb2]
      simp [extendRow, hb]
    · have hb' : (l.license_key == k) = false := by simp [hb]
      have hrow : extendRow k l = l := by simp [extendRow, hb']
      simp only [List.map_cons, hrow, lookupByKey, List.find?_cons, hb']
      exact ih

/-- C6: `ExtendLicense` is additive on the *stored* expiry, not on the
clock: for a stored license with `expiry_date = T` — past or future, the
endpoint never reads the current time for this — one extension leaves
`T + 30 days` and a second extension compounds to `T + 60 days`. -/
theorem extend_adds_to_stored_expiry
    (st : AdminState) (k : String) (now now2 : Int) (L : License)
    (hfound : lookupByKey st.licenses k = some L) :
    lookupByKey (extend_license st k now).2.licenses k =
      some { L with expiry_date := L.expiry_date + thirtyDaysSec } ∧
    lookupByKey (extend_license (extend_license st k now).2 k now2).2.licenses k =
      some { L with expiry_date := L.expiry_date + 2 * thirtyDaysSec } := by
  have h1 : lookupByKey (extend_license st k now).2.licenses k =
      some { L with expiry_date := L.expiry_date + thirtyDaysSec } := by
    show lookupByKey (st.licenses.map (extendRow k)) k = _
    rw [lookupByKey_extendMap, hfound]
    rfl
  refine ⟨h1, ?_⟩
  show lookupByKey ((extend_license st k now).2.licenses.map (extendRow k)) k = _
  rw [lookupByKey_extendMap, h1]
  have harith : L.expiry_date + thirtyDaysSec + thirtyDaysSec =
      L.expiry_date + 2 * thirtyDaysSec := by ring
  simp [harith]

/-- A concrete license with a lapsed expiry used in the witness to C6. -/
def lapsedC6 : License :=
  { license_key := "GTO-C6AA-BBBB-CCCC", hwid := none, email := none, ggid := none
    expiry_date := -500, stake_level := 25, max_devices := 1, plan := "Pro"
    is_active := true, created_at := 0, last_used := none, notes := none }

/-- Witness for the C6 theorem at a concrete input (a license that has
already lapsed, extended twice). -/
theorem extend_adds_to_stored_expiry_witness :
    lookupByKey (extend_license ⟨[lapsedC6], []⟩ "GTO-C6AA-BBBB-CCCC" 9).2.licenses
        "GTO-C6AA-BBBB-CCCC" =
      some { lapsedC6 with expiry_date := lapsedC6.expiry_date + thirtyDaysSec } ∧
    lookupByKey (extend_license
        (extend_license ⟨[lapsedC6], []⟩ "GTO-C6AA-BBBB-CCCC" 9).2
        "GTO-C6AA-BBBB-CCCC" 11).2.licenses "GTO-C6AA-BBBB-CCCC" =
      some { lapsedC6 with expiry_date := lapsedC6.expiry_date + 2 * thirtyDaysSec } :=
  extend_adds_to_stored_expiry ⟨[lapsedC6], []⟩ "GTO-C6AA-BBBB-CCCC" 9 11 lapsedC6
    (by decide)

/-- A concrete pre-existing license used in the counterexample to C8; its
key is exactly the first key the generator stream produces. -/
def existingC8 : License :=
  { license_key := "GTO-C8AA-BBBB-CCCC", hwid := none, email := none, ggid := none
    expiry_date := 10000, stake_level := 25, max_devices := 1, plan := "Pro"
    is_active := true, created_at := 0, last_used := none, notes := none }

/-- A concrete generator stream for C8: the first draw collides with
`existingC8`, the second draw is fresh. -/
def genC8 : Nat → String :=
  fun n => if n = 0 then "GTO-C8AA-BBBB-CCCC" else "GTO-C8FF-EEEE-DDDD"

/-- Counterexample to C8 as stated: when the first generated key collides,
`create_license` surfaces the failure immediately and inserts nothing, even
though the very next draw of the generator stream would have been fresh —
there is no internal retry. -/
theorem create_collision_no_retry_cex :
    (create_license genC8 ⟨[existingC8], []⟩ 0 30 "Pro" 25 1 "" "" "").1 = .error ∧
    (create_license genC8 ⟨[existingC8], []⟩ 0 30 "Pro" 25 1 "" "" "").2 =
      ⟨[existingC8], []⟩ ∧
    ¬ ∃ l ∈ [existingC8], l.license_key = genC8 1 := by
  decide

/-- C8 (amended): `create_license` draws a single key; if it collides with
a stored key the failure is surfaced at once — state unchanged, no audit
row, no retry — and if it is fresh the license is inserted with
`device_id = null`, `active = true` and `expires_at = now + duration`,
plus one audit row. -/
theorem create_license_behavior
    (gen : Nat → String) (st : AdminState) (now days stake maxd : Int)
    (plan email ggid notes : String) :
    ((∃ l ∈ st.licenses, l.license_key = gen 0) →
      create_license gen st now days plan stake maxd email ggid notes = (.error, st)) ∧
    ((∀ l ∈ st.licenses, l.license_key ≠ gen 0) →
      create_license gen st now days plan stake maxd email ggid notes =
        (.ok (gen 0),
          ⟨st.licenses ++ [mkLicense (gen 0) now days stake maxd plan email ggid notes],
            st.admin_logs ++ [⟨"创建 License", some (gen 0), some "创建", now⟩]⟩) ∧
      (mkLicense (gen 0) now days stake maxd plan email ggid notes).hwid = none ∧
      (mkLicense (gen 0) now days stake maxd plan email ggid notes).is_active = true ∧
      (mkLicense (gen 0) now days stake maxd plan email ggid notes).expiry_date =
        now + days * 86400) := by
  constructor
  · intro hcol
    have hany : st.licenses.any (fun l => l.license_key == gen 0) = true := by
      rw [List.any_eq_true]
      obtain ⟨l, hl, hkey⟩ := hcol
      exact ⟨l, hl, by simp [hkey]⟩
    rw [create_license]
    simp [hany]
  · intro hfresh
    have hany : st.licenses.any (fun l => l.license_key == gen 0) = false := by
      rw [List.any_eq_false]
      intro l hl
      simp [hfresh l hl]
    rw [create_license]
    simp [hany]
    exact ⟨rfl, rfl, rfl⟩

/-- Witness for the amended C8 theorem: the collision arm at a colliding
store and the success arm at the empty store. -/
theorem create_license_behavior_witness :
    create_license genC8 ⟨[existingC8], []⟩ 0 30 "Pro" 25 1 "" "" "" =
      (.error, ⟨[existingC8], []⟩) ∧
    create_license genC8 ⟨[], []⟩ 0 30 "Pro" 25 1 "" "" "" =
      (.ok (genC8 0),
        ⟨[] ++ [mkLicense (genC8 0) 0 30 25 1 "Pro" "" "" ""],
          [] ++ [⟨"创建 License", some (genC8 0), some "创建", 0⟩]⟩) :=
  ⟨(create_license_behavior genC8 ⟨[existingC8], []⟩ 0 30 25 1 "Pro" "" "" "").1
      ⟨existingC8, by decide, by decide⟩,
    ((create_license_behavior genC8 ⟨[], []⟩ 0 30 25 1 "Pro" "" "" "").2 (by simp)).1⟩
